import Mathlib

/-!
Verification of the field-to-argument translation engine of `simple_parsing`
(`simple_parsing/wrappers/field_wrapper.py`): a shallow embedding of the
`FieldWrapper` class and its collaborators, together with theorems settling
the specification claims about it.

Python values flowing through the wrapper (raw parsed values, defaults,
option-descriptor entries) are embedded as the inductive type `Value`;
declared field types are embedded as the type-descriptor sum `PyType`
(the spec's Type Classifier operates over exactly such a descriptor).
Code that can raise is embedded with `Except`/`Option` results.
-/

/-- A Python runtime value, as far as the field wrapper inspects it:
`none` is Python `None`, `missing` is the `dataclasses.MISSING` sentinel,
`vlist`/`vtuple` are `list`/`tuple`, `enumMember` is an enum member
identified by its name, `cls` is a class object identified by its name
(used for custom `action` classes), and `obj` is an arbitrary constructed
object (tag and constructor argument). -/
inductive Value where
  | none
  | bool (b : Bool)
  | int (n : Int)
  | str (s : String)
  | vlist (xs : List Value)
  | vtuple (xs : List Value)
  | missing
  | enumMember (name : String)
  | cls (name : String)
  | obj (tag : String) (arg : Value)

/-- Python truthiness (`bool(v)`), restricted to the embedded values.
`MISSING`, enum members, classes and arbitrary objects are truthy. -/
def Value.truthy : Value → Bool
  | .none => false
  | .bool b => b
  | .int n => n != 0
  | .str s => s ≠ ""
  | .vlist xs => ¬ xs.isEmpty
  | .vtuple xs => ¬ xs.isEmpty
  | .missing => true
  | .enumMember _ => true
  | .cls _ => true
  | .obj _ _ => true

/-- `v is None` in Python. -/
def Value.isNone : Value → Bool
  | .none => true
  | _ => false

/-- `v is dataclasses.MISSING` in Python. -/
def Value.isMissing : Value → Bool
  | .missing => true
  | _ => false

/-- `v == s` for a Python string literal `s`: true only when `v` is that
string (used for checks such as `self.action == "store_true"` and
`self.nargs in set of strings`, which are false for non-string values). -/
def Value.eqStr : Value → String → Bool
  | .str a, b => a = b
  | _, _ => false

/-- `s.startswith(p)` (characterwise, so it evaluates by reduction). -/
def pyStartswith (s p : String) : Bool :=
  List.isPrefixOf p.toList s.toList

/-- `isinstance(v, list)`. -/
def Value.isList : Value → Bool
  | .vlist _ => true
  | _ => false

/-- A language-neutral descriptor of a declared field type, as recommended
by the spec's design notes: primitives, a closed named-value sum
(`enumT`, carrying its member names in declaration order), containers,
`Optional[...]` (the non-absence alternative; the multi-way-union case is
collapsed to one alternative, the spec flags its resolution as an
undocumented ambiguity beyond the `str` preference), and arbitrary
non-builtin classes (`custom`). -/
inductive PyType where
  | bool
  | int
  | float
  | str
  | enumT (members : List String)
  | listT
  | tupleT
  | optionalT (alt : PyType)
  | custom (name : String)
  deriving DecidableEq, Repr

/-- Modelled from the spec: `utils.builtin_types` membership, restricted to
the primitive built-ins the Value Post-Processor distinguishes. -/
def isBuiltinType : PyType → Bool
  | .bool | .int | .float | .str => true
  | _ => false

/-- A Python `dict` keyed by strings, in insertion order (used for the
option descriptor and for `field.metadata` entries). -/
def Options := List (String × Value)

/-- `d.get(k, dflt)` on a string-keyed dict. -/
def Options.getD (opts : Options) (k : String) (dflt : Value) : Value :=
  match (List.find? (fun kv => kv.1 == k) opts) with
  | some kv => kv.2
  | Option.none => dflt

/-- `a.update(b)` on string-keyed dicts: same-named keys of `b` replace the
values in `a` (keeping `a`'s position), new keys of `b` are appended. -/
def Options.update (a b : Options) : Options :=
  (a.map (fun kv =>
    match (List.find? (fun kv2 => kv2.1 == kv.1) b) with
    | some kv2 => (kv.1, kv2.2)
    | Option.none => kv)) ++
  b.filter (fun kv => ¬ a.any (fun kv2 => kv2.1 == kv.1))

/-- A default dataclass instance, as far as `getattr(instance, name)` is
used on it: a mapping from attribute name to value. -/
def Instance := List (String × Value)

/-- `getattr(instance, name)` (the attribute is present on every default
instance the wrapper queries; absence is not modelled). -/
def Instance.getattr (i : Instance) (n : String) : Value :=
  match (List.find? (fun kv => kv.1 == n) i) with
  | some kv => kv.2
  | Option.none => Value.none

/-- The embedded `FieldWrapper`: the wrapped `dataclasses.Field` data, the
slots consumed from the owning-structure collaborator (destinations,
prefix, defaults, required), the external collaborators (the constructor
of a custom type, the docstring lookup), the class-level dash-variant
toggle, and the cache holders set up in `__init__`.

`fieldDefault` is `utils.default_value(self.field)` (`missing` when the
field declares no default); `construct` models calling `self.type(...)`
on a custom type, `Option.none` meaning the call raised; `docRes` models
`docstring.get_attribute_docstring` returning the triple
(docstring_below, comment_above, comment_inline), `Option.none` meaning
the lookup raised. -/
structure FieldWrapper where
  name : String
  pfx : String
  aliases : List String
  parentDestinations : List String
  parentDefaults : List Instance
  parentRequired : Bool
  field_type : PyType
  fieldDefault : Value
  fieldInit : Bool
  customArgOptions : Options
  autoOptions : Options
  is_subparser : Bool
  construct : Value → Option Value
  docRes : Option (String × String × String)
  add_dash_variants : Bool
  _required : Option Bool
  _default : Value
  _help : Option String
  _arg_options : Options

/-- `self.destinations`: one dotted destination path per instantiation of
the owning structure. -/
def FieldWrapper.destinations (s : FieldWrapper) : List String :=
  s.parentDestinations.map (fun parent_dest => parent_dest ++ "." ++ s.name)

/-- `self.is_reused`: the owning structure is instantiated more than once. -/
def FieldWrapper.is_reused (s : FieldWrapper) : Bool :=
  s.destinations.length > 1

/-- `self.action`: the `action` argument to `add_argument`, taken from the
custom options with default `"store"`. -/
def FieldWrapper.actionV (s : FieldWrapper) : Value :=
  s.customArgOptions.getD "action" (Value.str "store")

/-- `self.action_str`: the action name (`self.action` when it is a string,
its `__name__` when it is a class). -/
def FieldWrapper.action_str (s : FieldWrapper) : String :=
  match s.actionV with
  | .str a => a
  | .cls n => n
  | _ => ""

/-- `self.nargs`: `custom_arg_options.get("nargs", None)`. -/
def FieldWrapper.nargsV (s : FieldWrapper) : Value :=
  s.customArgOptions.getD "nargs" Value.none

/-- `self.type`: the effective type — for `Optional[...]` the non-absence
alternative, preferring `str` when it is among the alternatives (see the
`PyType.optionalT` remark); otherwise the declared type unchanged. -/
def FieldWrapper.type (s : FieldWrapper) : PyType :=
  match s.field_type with
  | .optionalT alt => if alt = .str then .str else alt
  | t => t

/-- `self.is_optional`: the declared type is `Optional[...]`. -/
def FieldWrapper.is_optional (s : FieldWrapper) : Bool :=
  match s.field_type with
  | .optionalT _ => true
  | _ => false

/-- `self.is_enum` (a predicate over the effective type). -/
def FieldWrapper.is_enum (s : FieldWrapper) : Bool :=
  match s.type with
  | .enumT _ => true
  | _ => false

/-- `self.is_list`. -/
def FieldWrapper.is_list (s : FieldWrapper) : Bool :=
  match s.type with
  | .listT => true
  | _ => false

/-- `self.is_tuple`. -/
def FieldWrapper.is_tuple (s : FieldWrapper) : Bool :=
  match s.type with
  | .tupleT => true
  | _ => false

/-- `self.is_bool`. -/
def FieldWrapper.is_bool (s : FieldWrapper) : Bool :=
  s.type = PyType.bool

/-- The values the `default` property collects from the owning structure's
default instances: `defaults[0] if len(defaults) == 1 else defaults`
(empty `parent.defaults` never reaches this, see `defaultCompute`). -/
def FieldWrapper.parentAttr (s : FieldWrapper) : Value :=
  match s.parentDefaults with
  | [] => Value.none
  | [i] => i.getattr s.name
  | is => Value.vlist (is.map (fun i => i.getattr s.name))

/-- The reused-field replication step at the end of the `default` property:
when the field is reused and a default exists, a default that is not
already a list of one value per destination is replicated into one. -/
def FieldWrapper.replicateIfReused (s : FieldWrapper) (d : Value) : Value :=
  if s.is_reused ∧ ¬ d.isNone then
    match d with
    | .vlist xs => if xs.length = s.destinations.length then d
                   else Value.vlist (List.replicate s.destinations.length d)
    | v => Value.vlist (List.replicate s.destinations.length v)
  else d

/-- The body of the `default` property past the cache check: the field's own
default (`MISSING` becoming `None`), a forced boolean for the
`store_true`/`store_false` actions when that is `None`, then — overriding
the previous value — the corresponding attribute of the owning
structure's default instance(s) when any are present, and finally the
replication step for reused fields. -/
def FieldWrapper.defaultCompute (s : FieldWrapper) : Value :=
  let d := if s.fieldDefault.isMissing then Value.none else s.fieldDefault
  let d := if s.actionV.eqStr "store_true" ∧ d.isNone then Value.bool false else d
  let d := if s.actionV.eqStr "store_false" ∧ d.isNone then Value.bool true else d
  let d := if ¬ s.parentDefaults.isEmpty then s.parentAttr else d
  s.replicateIfReused d

/-- The `default` property: the cached/explicitly-set value when one is set
(Python checks `self._default is not None`), else the computed value. -/
def FieldWrapper.defaultVal (s : FieldWrapper) : Value :=
  if ¬ s._default.isNone then s._default else s.defaultCompute

/-- The `default` property as a state transformer: reading it also stores
the computed value in the `_default` holder. -/
def FieldWrapper.defaultGet (s : FieldWrapper) : Value × FieldWrapper :=
  if ¬ s._default.isNone then (s._default, s)
  else (s.defaultCompute, { s with _default := s.defaultCompute })

/-- `any(v == dataclasses.MISSING for v in self.default)`: the reused branch
of the `required` property iterates the (list-valued) default. -/
def Value.anyMissing : Value → Bool
  | .vlist xs => xs.any Value.isMissing
  | _ => false

/-- The body of the `required` property past the cache check, clause by
clause in the source's order:  `store_`-prefixed action names; optional
declared type; required owning structure; `nargs` of `?`/`*` vs `+`;
absent default; reused fields with a `MISSING` per-instance default. -/
def FieldWrapper.requiredCompute (s : FieldWrapper) : Bool :=
  if pyStartswith s.action_str "store_" then false
  else if s.is_optional then false
  else if s.parentRequired then true
  else if s.nargsV.eqStr "?" ∨ s.nargsV.eqStr "*" then false
  else if s.nargsV.eqStr "+" then true
  else if s.defaultVal.isNone then true
  else if s.is_reused then s.defaultVal.anyMissing
  else false

/-- The `required` property: the cached/explicitly-set value when one is
set, else the computed value. -/
def FieldWrapper.requiredVal (s : FieldWrapper) : Bool :=
  match s._required with
  | some b => b
  | Option.none => s.requiredCompute

/-- The `required` property as a state transformer: reading it also stores
the computed value in the `_required` holder. -/
def FieldWrapper.requiredGet (s : FieldWrapper) : Bool × FieldWrapper :=
  match s._required with
  | some b => (b, s)
  | Option.none => (s.requiredCompute, { s with _required := some s.requiredCompute })

/-- The `help` property: the cached value when truthy; else the docstring
collaborator's triple (an empty triple when the lookup raised), searched
in the order docstring-below, comment-above, comment-inline, falling back
to the (unset) cache holder. -/
def FieldWrapper.helpVal (s : FieldWrapper) : Option String :=
  if (match s._help with | some h => decide (h ≠ "") | Option.none => false) = true then s._help
  else
    match s.docRes with
    | Option.none => s._help
    | some (below, above, inl) =>
      if below ≠ "" then some below
      else if above ≠ "" then some above
      else if inl ≠ "" then some inl
      else s._help

/-- `option.replace("_", "-")` (a single-character pattern, so a characterwise
replacement). -/
def dashify (o : String) : String :=
  String.mk (o.toList.map (fun c => if c = '_' then '-' else c))

/-- `"_" in option`. -/
def hasUnderscore (o : String) : Bool :=
  o.toList.contains '_'

/-- The parallel `dashes`/`options` lists built by the `option_strings`
property before the dash-variant block: the primary spelling (single
leading dash for a one-character name, plus a double-dash twin), then one
spelling per alias (explicit leading dashes preserved and stripped before
re-prefixing, otherwise the length rule), every name prefixed by the
owning prefix. -/
def FieldWrapper.basePairs (s : FieldWrapper) : List (String × String) :=
  let dash := if s.name.length = 1 then "-" else "--"
  let option := s.pfx ++ s.name
  ([(dash, option)] ++ (if dash = "-" then [("--", option)] else [])) ++
  s.aliases.map (fun al =>
    if pyStartswith al "--" then ("--", s.pfx ++ (al.drop 2))
    else if pyStartswith al "-" then ("-", s.pfx ++ (al.drop 1))
    else if al.length = 1 then ("-", s.pfx ++ al)
    else ("--", s.pfx ++ al))

/-- The dash-variant block: for every generated name containing an
underscore, a variant with underscores replaced by hyphens, its dash
count recomputed from the variant's length. -/
def FieldWrapper.variantPairs (s : FieldWrapper) : List (String × String) :=
  (s.basePairs.map Prod.snd).filter hasUnderscore |>.map
    (fun option => (if (dashify option).length = 1 then "-" else "--", dashify option))

/-- `a.length ≤ b.length`: the key of `sorted(option_strings, key=len)`. -/
def lenLE (a b : String) : Prop :=
  a.length ≤ b.length

instance : DecidableRel lenLE := fun a b => Nat.decLe a.length b.length

instance : IsTotal String lenLE := ⟨fun a b => Nat.le_total a.length b.length⟩

instance : IsTrans String lenLE := ⟨fun _ _ _ => Nat.le_trans⟩

/-- The `option_strings` property: each dash prepended to its name, the
results deduplicated (Python builds a `set`) and sorted by ascending
length (a stable sort, modelled by insertion sort; the set's iteration
order is arbitrary, so only the multiset of spellings is specified). -/
def FieldWrapper.option_strings (s : FieldWrapper) : List String :=
  let pairs := s.basePairs ++ (if s.add_dash_variants then s.variantPairs else [])
  List.insertionSort lenLE ((pairs.map (fun p => p.1 ++ p.2)).dedup)

/-- The two errors `duplicate_if_needed` can raise: a failed `assert`, and
`utils.InconsistentArgumentError`. -/
inductive DupError where
  | assertionError (msg : String)
  | inconsistentArgumentError (msg : String)

/-- The message of the inconsistent-argument error, naming the field, the
number of values received and the expected 1-or-N. -/
def inconsistentMsg (name : String) (received expected : Nat) : String :=
  "The field '" ++ name ++ "' contains " ++ toString received ++
  " values, but either " ++ ("1 or " ++ toString expected) ++
  " values were expected."

mutual

/-- Modelled from the spec: `utils.get_nesting_level` — the list-nesting
depth of a value (0 for a non-list, 1 for a flat list, one more per level
of nesting, an empty list counting as depth 1). -/
def nestingLevel : Value → Nat
  | .vlist xs => 1 + nestingLevelList xs
  | _ => 0

/-- Maximum of `nestingLevel` over the elements of a list (0 when empty). -/
def nestingLevelList : List Value → Nat
  | [] => 0
  | x :: xs => max (nestingLevel x) (nestingLevelList xs)

end

/-- Step 1 of `duplicate_if_needed`: a tuple is converted to a list when the
effective type is a `List`. -/
def FieldWrapper.dupCoerce (s : FieldWrapper) (pv : Value) : Value :=
  if s.is_list then (match pv with | .vtuple xs => .vlist xs | v => v) else pv

/-- Step 2 of `duplicate_if_needed`: for a field that is neither list- nor
tuple-typed, a list of nesting depth exactly 2 with outer length 1 and
inner length N is unwrapped one level (the parser grouped all N values
into one outer bucket). `some inner` when the early return fires. -/
def FieldWrapper.dupUnwrap (s : FieldWrapper) (pv : Value) (n : Nat) : Option (List Value) :=
  if s.is_tuple ∨ s.is_list then Option.none
  else
    match pv with
    | .vlist [Value.vlist inner] =>
      if nestingLevel (Value.vlist [Value.vlist inner]) = 2 ∧ inner.length = n
      then some inner else Option.none
    | _ => Option.none

/-- Step 3 of `duplicate_if_needed`: a bare scalar is coerced into a
single-element sequence; list and tuple inputs contribute their
elements. -/
def toSeq : Value → List Value
  | .vlist xs => xs
  | .vtuple xs => xs
  | v => [v]

/-- `duplicate_if_needed(parsed_values)`: asserts the field is reused with
more than one destination, runs the three coercion steps, then returns
the sequence as-is when its length is N, replicates a single element N
times, and raises `InconsistentArgumentError` otherwise. -/
def FieldWrapper.duplicate_if_needed (s : FieldWrapper) (pv : Value) :
    Except DupError (List Value) :=
  let n := s.destinations.length
  if n ≤ 1 then
    .error (.assertionError
      "multiple is true but we're expected to instantiate only one instance")
  else
    let pv := s.dupCoerce pv
    match s.dupUnwrap pv n with
    | some inner => .ok inner
    | Option.none =>
      let seq := toSeq pv
      if seq.length = n then .ok seq
      else if seq.length = 1 then .ok (List.replicate n (seq.headD Value.none))
      else .error (.inconsistentArgumentError (inconsistentMsg s.name seq.length n))

/-- `postprocess(raw_parsed_value)`: converts an accepted raw value back to
the field's declared type, branch for branch as in the source.  Raising
branches (`KeyError` from an enum lookup of an unknown name, `TypeError`
from `tuple(...)` of a non-sequence) are embedded as `Except.error`.
The source's boolean branch also reads `self.dest_field`'s metadata into
a local that is never used; that read has no effect and is not modelled. -/
def FieldWrapper.postprocess (s : FieldWrapper) (raw : Value) : Except String Value :=
  if s.is_enum then
    match s.type, raw with
    | .enumT members, .str nm =>
      if members.contains nm then .ok (.enumMember nm)
      else .error ("KeyError: " ++ nm)
    | _, _ => .ok raw
  else if s.is_tuple then
    match raw with
    | .vtuple _ => .ok raw
    | .vlist xs => .ok (.vtuple xs)
    | .str a => .ok (.vtuple (a.toList.map (fun c => Value.str (String.mk [c]))))
    | _ => .error "TypeError: object is not iterable"
  else if s.is_bool then
    if raw.isNone ∧ ¬ s.defaultVal.isNone then .ok (.bool (! s.defaultVal.truthy))
    else .ok raw
  else if s.is_list then
    match raw with
    | .vtuple xs => .ok (.vlist xs)
    | v => .ok v
  else if s.is_subparser then .ok raw
  else if ¬ isBuiltinType s.type then
    match s.construct raw with
    | some v => .ok v
    | Option.none => .ok raw
  else .ok raw

/-- The constructor contract of a standard argparse action class:
`inspect.getfullargspec(action_class)` — its positional argument names
(`self` included) and whether it takes `*args`/`**kwargs`. -/
structure ActionSpec where
  ctorArgs : List String
  hasVarArgs : Bool
  hasVarKw : Bool
  deriving DecidableEq, Repr

/-- The `argparse_action_classes` table of `only_keep_action_args`, with
each class's constructor argument names (none of the standard argparse
action constructors takes variable arguments). -/
def argparse_action_classes : List (String × ActionSpec) :=
  [("store", ⟨["self", "option_strings", "dest", "nargs", "const", "default",
               "type", "choices", "required", "help", "metavar"], false, false⟩),
   ("store_const", ⟨["self", "option_strings", "dest", "const", "default",
                     "required", "help", "metavar"], false, false⟩),
   ("store_true", ⟨["self", "option_strings", "dest", "default", "required",
                    "help"], false, false⟩),
   ("store_false", ⟨["self", "option_strings", "dest", "default", "required",
                     "help"], false, false⟩),
   ("append", ⟨["self", "option_strings", "dest", "nargs", "const", "default",
                "type", "choices", "required", "help", "metavar"], false, false⟩),
   ("append_const", ⟨["self", "option_strings", "dest", "const", "default",
                      "required", "help", "metavar"], false, false⟩),
   ("count", ⟨["self", "option_strings", "dest", "default", "required",
               "help"], false, false⟩),
   ("help", ⟨["self", "option_strings", "dest", "default", "help"], false, false⟩),
   ("version", ⟨["self", "option_strings", "version", "dest", "default",
                 "help"], false, false⟩),
   ("parsers", ⟨["self", "option_strings", "prog", "parser_class", "dest",
                 "required", "help", "metavar"], false, false⟩)]

/-- `action in argparse_action_classes` / the class looked up for it: only a
string that is one of the ten standard names is found (a custom action
class or any other value is not a key of the table). -/
def knownAction (action : Value) : Option ActionSpec :=
  match action with
  | .str a =>
    match (List.find? (fun kv => kv.1 == a) argparse_action_classes) with
    | some kv => some kv.2
    | Option.none => Option.none
  | _ => Option.none

/-- `utils.keep_keys(options, keys_to_keep)`, kept part: the entries of the
dict whose key is in the list. -/
def keepKeys (options : Options) (keys : List String) : Options :=
  options.filter (fun kv => keys.contains kv.1)

/-- `only_keep_action_args(options, action)`: a non-standard action keeps
every option; a standard action whose constructor takes variable
arguments would also keep everything; otherwise only the keys of the
constructor contract plus `action` itself survive. -/
def only_keep_action_args (options : Options) (action : Value) : Options :=
  match knownAction action with
  | Option.none => options
  | some spec =>
    if spec.hasVarArgs ∨ spec.hasVarKw then options
    else keepKeys options (spec.ctorArgs ++ ["action"])

/-- The body of the `arg_options` property past the cache check: the
auto-generated options are overwritten by the custom ones, the action is
read from the merged result with default `"store"`, and the merged result
is pruned to the action's constructor contract. -/
def argOptionsCompute (auto custom : Options) : Options :=
  let options := Options.update auto custom
  let action := options.getD "action" (Value.str "store")
  only_keep_action_args options action

/-- The `arg_options` property as a state transformer: the cached descriptor
when the holder is non-empty (Python tests the dict's truthiness), else
the computed descriptor, which is also stored. -/
def FieldWrapper.argOptionsGet (s : FieldWrapper) : Options × FieldWrapper :=
  if (List.isEmpty s._arg_options) then
    (argOptionsCompute s.autoOptions s.customArgOptions,
     { s with _arg_options := argOptionsCompute s.autoOptions s.customArgOptions })
  else (s._arg_options, s)

/-- The `required` chain as the spec states it (for comparison with the
source's `requiredCompute`): identical except that its first clause is
the spec's enumerated set of no-value-store actions
(`store_true`/`store_false`/`store_const`) instead of the source's
`startswith("store_")` test. -/
def FieldWrapper.requiredSpecStated (s : FieldWrapper) : Bool :=
  match s._required with
  | some b => b
  | Option.none =>
    if s.action_str = "store_true" ∨ s.action_str = "store_false" ∨
       s.action_str = "store_const" then false
    else if s.is_optional then false
    else if s.parentRequired then true
    else if s.nargsV.eqStr "?" ∨ s.nargsV.eqStr "*" then false
    else if s.nargsV.eqStr "+" then true
    else if s.defaultVal.isNone then true
    else if s.is_reused then s.defaultVal.anyMissing
    else false

/-- The `default` resolution as the spec states it (for comparison with the
source): the explicitly set value wins, **next the field's own declared
default, next** the owning structure's default instance's attribute(s),
with the `store_true`/`store_false` forcing when none otherwise exists
and the replication step for reused fields. -/
def FieldWrapper.defaultSpecStated (s : FieldWrapper) : Value :=
  if ¬ s._default.isNone then s._default
  else
    let d :=
      if ¬ s.fieldDefault.isMissing then s.fieldDefault
      else if ¬ s.parentDefaults.isEmpty then s.parentAttr
      else Value.none
    let d := if s.actionV.eqStr "store_true" ∧ d.isNone then Value.bool false else d
    let d := if s.actionV.eqStr "store_false" ∧ d.isNone then Value.bool true else d
    s.replicateIfReused d

/-- A baseline concrete wrapper: a fresh, non-reused `int` field named `x`
with no default, no custom options and no docstring, as built by
`__init__` (all cache holders unset). -/
def FW0 : FieldWrapper :=
  { name := "x"
    pfx := ""
    aliases := []
    parentDestinations := ["main"]
    parentDefaults := []
    parentRequired := false
    field_type := PyType.int
    fieldDefault := Value.missing
    fieldInit := true
    customArgOptions := []
    autoOptions := []
    is_subparser := false
    construct := fun _ => Option.none
    docRes := some ("", "", "")
    add_dash_variants := false
    _required := Option.none
    _default := Value.none
    _help := Option.none
    _arg_options := [] }

/-- A reused field: three destinations (`A.x`, `B.x`, `C.x`). -/
def exC1 : FieldWrapper :=
  { FW0 with parentDestinations := ["A", "B", "C"] }

/-- A field with auto-generated options and a custom `store_true` action. -/
def exC2 : FieldWrapper :=
  { FW0 with
      autoOptions := [("type", Value.cls "int"), ("required", Value.bool false),
                      ("dest", Value.str "main.x")]
      customArgOptions := [("action", Value.str "store_true")] }

/-- A field with a non-standard custom action name. -/
def exC2b : FieldWrapper :=
  { FW0 with
      autoOptions := [("type", Value.cls "int"), ("required", Value.bool false)]
      customArgOptions := [("action", Value.str "my_custom_action")] }

/-- A boolean field whose declared default is `True`. -/
def exC3 : FieldWrapper :=
  { FW0 with field_type := PyType.bool, fieldDefault := Value.bool true }

/-- A boolean field whose declared default is `False`. -/
def exC3b : FieldWrapper :=
  { FW0 with field_type := PyType.bool, fieldDefault := Value.bool false }

/-- A field with a custom action named `store_x`: not one of the three
no-value-store actions, yet `store_`-prefixed. -/
def exC4 : FieldWrapper :=
  { FW0 with customArgOptions := [("action", Value.str "store_x")] }

/-- A field with its own declared default `1` while the owning structure's
default instance carries `2` for it. -/
def exC5 : FieldWrapper :=
  { FW0 with
      name := "f"
      fieldDefault := Value.int 1
      parentDefaults := [([("f", Value.int 2)] : Instance)] }

/-- A field with a declared default and no parent default instance. -/
def exC5b : FieldWrapper :=
  { FW0 with fieldDefault := Value.int 7 }

/-- A one-character field name under a prefix. -/
def exC6 : FieldWrapper :=
  { FW0 with pfx := "p." }

/-- A one-character field name under an underscore-bearing prefix, with the
dash-variant expansion toggle enabled: the primary spelling `-a_x` is a
single-dash spelling whose name part contains an underscore. -/
def exC7 : FieldWrapper :=
  { FW0 with pfx := "a_", add_dash_variants := true }

/-- A custom-typed field whose constructor call always raises. -/
def exC9 : FieldWrapper :=
  { FW0 with field_type := PyType.custom "Path", construct := fun _ => Option.none }

/-- A custom-typed field whose constructor call succeeds. -/
def exC9b : FieldWrapper :=
  { FW0 with
      field_type := PyType.custom "Path"
      construct := fun v => some (Value.obj "Path" v) }

/-- A field whose docstring lookup finds all three docstring sources. -/
def exC10 : FieldWrapper :=
  { FW0 with docRes := some ("below", "above", "inline") }

/-- A field whose docstring lookup raises. -/
def exC10b : FieldWrapper :=
  { FW0 with docRes := Option.none }

/-- Claim C8: calling `arg_options` a second time returns the result of the
first call unchanged (deep-equal) and leaves the wrapper's state exactly
as the first call left it. -/
theorem arg_options_second_call_cached (s : FieldWrapper) :
    (s.argOptionsGet.2).argOptionsGet = s.argOptionsGet := by
  by_cases h : List.isEmpty s._arg_options
  · by_cases hr : List.isEmpty (argOptionsCompute s.autoOptions s.customArgOptions)
    · simp [FieldWrapper.argOptionsGet, h, hr]
    · simp [FieldWrapper.argOptionsGet, h, hr]
  · simp [FieldWrapper.argOptionsGet, h]

/-- Claim C10: without an explicitly set help override, `help` returns the
docstring-collaborator results in the precedence order docstring-below,
comment-above, comment-inline (skipping empty ones), and returns no help
text when the docstring lookup raises. -/
theorem help_precedence_order (s : FieldWrapper) (hc : s._help = Option.none) :
    (s.docRes = Option.none → s.helpVal = Option.none) ∧
    (∀ below above inl, s.docRes = some (below, above, inl) →
      s.helpVal = (if below ≠ "" then some below
                   else if above ≠ "" then some above
                   else if inl ≠ "" then some inl
                   else Option.none)) := by
  constructor
  · intro hd
    simp [FieldWrapper.helpVal, hc, hd]
  · intro below above inl hd
    simp [FieldWrapper.helpVal, hc, hd]

/-- Witness for C10 at concrete inputs: all three docstring sources found
picks the docstring below; a raising lookup yields no help text. -/
theorem help_precedence_order_witness :
    exC10.helpVal = some "below" ∧ exC10b.helpVal = Option.none := by
  constructor
  · have h := (help_precedence_order exC10 rfl).2 "below" "above" "inline" rfl
    simpa using h
  · exact (help_precedence_order exC10b rfl).1 rfl

/-- Claim C9: for a field whose effective type is none of the primitive
built-ins, enum, list, tuple, bool or a subcommand-dispatch field,
`postprocess` calls the type as a one-argument constructor and never
propagates a failure of that call: the parse never fails, a failing call
returns the raw value unchanged, a succeeding call returns its result. -/
theorem postprocess_constructor_fallback (s : FieldWrapper) (raw : Value)
    (he : s.is_enum = false) (ht : s.is_tuple = false) (hb : s.is_bool = false)
    (hl : s.is_list = false) (hs : s.is_subparser = false)
    (hbt : isBuiltinType s.type = false) :
    (∃ v, s.postprocess raw = Except.ok v) ∧
    (s.construct raw = Option.none → s.postprocess raw = Except.ok raw) ∧
    (∀ v, s.construct raw = some v → s.postprocess raw = Except.ok v) := by
  refine ⟨?_, ?_, ?_⟩
  · unfold FieldWrapper.postprocess
    rw [he, ht, hb, hl, hs, hbt]
    simp only [Bool.false_eq_true, if_false, not_false_eq_true, if_true]
    cases s.construct raw <;> simp
  · intro hcall
    simp [FieldWrapper.postprocess, he, ht, hb, hl, hs, hbt, hcall]
  · intro v hcall
    simp [FieldWrapper.postprocess, he, ht, hb, hl, hs, hbt, hcall]

/-- Witness for C9 at concrete inputs: a raising constructor returns the raw
string unchanged, a succeeding constructor returns the constructed
object. -/
theorem postprocess_constructor_fallback_witness :
    exC9.postprocess (Value.str "hi") = Except.ok (Value.str "hi") ∧
    exC9b.postprocess (Value.str "hi") =
      Except.ok (Value.obj "Path" (Value.str "hi")) := by
  constructor
  · exact (postprocess_constructor_fallback exC9 (Value.str "hi")
      rfl rfl rfl rfl rfl rfl).2.1 rfl
  · exact (postprocess_constructor_fallback exC9b (Value.str "hi")
      rfl rfl rfl rfl rfl rfl).2.2 (Value.obj "Path" (Value.str "hi")) rfl

/-- Claim C3: for a boolean field, `postprocess(None)` with a non-absent
default returns the logical negation of the default (`False` for default
`True`, `True` for default `False`), and any non-absent parsed boolean is
returned unchanged. -/
theorem postprocess_bool_negates_default (s : FieldWrapper)
    (hb : s.is_bool = true) :
    (∀ b, s.defaultVal = Value.bool b →
      s.postprocess Value.none = Except.ok (Value.bool (!b))) ∧
    (s.defaultVal.isNone = false →
      s.postprocess Value.none = Except.ok (Value.bool (! s.defaultVal.truthy))) ∧
    (∀ b, s.postprocess (Value.bool b) = Except.ok (Value.bool b)) := by
  have htype : s.type = PyType.bool := by
    unfold FieldWrapper.is_bool at hb
    exact of_decide_eq_true hb
  refine ⟨?_, ?_, ?_⟩
  · intro b hd
    simp [FieldWrapper.postprocess, FieldWrapper.is_enum, FieldWrapper.is_tuple,
          FieldWrapper.is_bool, htype, hd, Value.isNone, Value.truthy]
  · intro hd
    cases hdv : s.defaultVal <;>
      simp_all [FieldWrapper.postprocess, FieldWrapper.is_enum,
        FieldWrapper.is_tuple, FieldWrapper.is_bool, htype, Value.isNone,
        Value.truthy]
  · intro b
    simp [FieldWrapper.postprocess, FieldWrapper.is_enum, FieldWrapper.is_tuple,
          FieldWrapper.is_bool, htype, Value.isNone]

/-- Witness for C3 at concrete inputs: default `True` gives
`postprocess(None) == False`, default `False` gives `True`, and a parsed
`True` passes through. -/
theorem postprocess_bool_negates_default_witness :
    exC3.postprocess Value.none = Except.ok (Value.bool false) ∧
    exC3b.postprocess Value.none = Except.ok (Value.bool true) ∧
    exC3.postprocess (Value.bool true) = Except.ok (Value.bool true) := by
  refine ⟨?_, ?_, ?_⟩
  · have h := (postprocess_bool_negates_default exC3 rfl).1 true rfl
    simpa using h
  · have h := (postprocess_bool_negates_default exC3b rfl).1 false rfl
    simpa using h
  · exact (postprocess_bool_negates_default exC3 rfl).2.2 true

/-- None of the ten standard argparse action constructors takes `*args` or
`**kwargs`. -/
theorem knownAction_no_varargs (a : Value) (spec : ActionSpec)
    (h : knownAction a = some spec) :
    spec.hasVarArgs = false ∧ spec.hasVarKw = false := by
  have hall : ∀ kv ∈ argparse_action_classes,
      kv.2.hasVarArgs = false ∧ kv.2.hasVarKw = false := by decide
  cases a with
  | str sa =>
    simp only [knownAction] at h
    cases hf : List.find? (fun kv => kv.1 == sa) argparse_action_classes with
    | none => rw [hf] at h; cases h
    | some kv =>
      rw [hf] at h
      cases h
      exact hall kv (List.mem_of_find?_eq_some hf)
  | none => simp [knownAction] at h
  | bool b => simp [knownAction] at h
  | int n => simp [knownAction] at h
  | vlist xs => simp [knownAction] at h
  | vtuple xs => simp [knownAction] at h
  | missing => simp [knownAction] at h
  | enumMember n => simp [knownAction] at h
  | cls n => simp [knownAction] at h
  | obj t v => simp [knownAction] at h

/-- Claim C2: with an unset cache, the finalized `arg_options` descriptor is
the merge of the auto-generated and custom options, pruned by the
action-kind read from the merged options with default `"store"`: a
non-standard action-kind keeps every key, a standard one keeps exactly
the keys of its constructor contract plus the `action` key itself. -/
theorem arg_options_pruned_to_action_args (s : FieldWrapper)
    (hcache : List.isEmpty s._arg_options = true) :
    (s.argOptionsGet.1 = argOptionsCompute s.autoOptions s.customArgOptions) ∧
    (knownAction ((Options.update s.autoOptions s.customArgOptions).getD
        "action" (Value.str "store")) = Option.none →
      s.argOptionsGet.1 = Options.update s.autoOptions s.customArgOptions) ∧
    (∀ spec, knownAction ((Options.update s.autoOptions s.customArgOptions).getD
        "action" (Value.str "store")) = some spec →
      s.argOptionsGet.1 =
        (Options.update s.autoOptions s.customArgOptions).filter
          (fun kv => spec.ctorArgs.contains kv.1 || kv.1 == "action")) := by
  have hc : s.argOptionsGet.1 = argOptionsCompute s.autoOptions s.customArgOptions := by
    simp [FieldWrapper.argOptionsGet, hcache]
  refine ⟨hc, ?_, ?_⟩
  · intro hk
    rw [hc]
    simp only [argOptionsCompute, only_keep_action_args, hk]
  · intro spec hk
    obtain ⟨hv1, hv2⟩ := knownAction_no_varargs _ _ hk
    rw [hc]
    simp only [argOptionsCompute, only_keep_action_args, hk, hv1, hv2,
      Bool.false_eq_true, or_self, if_false, keepKeys]
    apply List.filter_congr
    intro kv _
    simp [beq_eq_decide]
    congr 1
    exact decide_eq_decide.mpr Iff.rfl

/-- Witness for C2 at concrete inputs: a custom `store_true` action prunes
the auto-generated `type` key but keeps `required`, `dest` and the
`action` key itself; a non-standard action name keeps every key. -/
theorem arg_options_pruned_to_action_args_witness :
    exC2.argOptionsGet.1 =
      [("required", Value.bool false), ("dest", Value.str "main.x"),
       ("action", Value.str "store_true")] ∧
    exC2b.argOptionsGet.1 =
      [("type", Value.cls "int"), ("required", Value.bool false),
       ("action", Value.str "my_custom_action")] := by
  constructor
  · have h := (arg_options_pruned_to_action_args exC2 rfl).2.2
      ⟨["self", "option_strings", "dest", "default", "required", "help"],
        false, false⟩ rfl
    rw [h]
    rfl
  · have h := (arg_options_pruned_to_action_args exC2b rfl).2.1 rfl
    rw [h]
    rfl

/-- If a value equals one string under Python string equality, it differs
from any other string. -/
theorem Value.eqStr_ne (v : Value) (a b : String) (h : v.eqStr a = true)
    (hne : a ≠ b) : v.eqStr b = false := by
  cases v <;> simp [Value.eqStr] at h ⊢
  intro hcb
  exact hne ((h.symm.trans hcb))

/-- Counterexample to C4 as stated: for a field whose custom action is the
non-standard name `store_x` — `store_`-prefixed but none of
`store_true`/`store_false`/`store_const` — the code computes
`required == False` (the source tests `startswith("store_")`), while the
claim's chain, whose first clause only covers the three enumerated
actions, reaches the no-default clause and yields `True`. -/
theorem required_store_prefix_counterexample :
    exC4.requiredVal = false ∧ exC4.requiredSpecStated = true ∧
    exC4.requiredVal ≠ exC4.requiredSpecStated := by
  refine ⟨?_, ?_, ?_⟩ <;> decide

/-- Claim C4 (amended: the first clause is the source's
`startswith("store_")` test, which subsumes the three no-value-store
actions): with an unset cache, `required` resolves in this priority
order — `store_`-prefixed action false; optional type false; required
owning structure true; `nargs` `?`/`*` false and `+` true; absent
default true; reused with per-instance defaults true iff any of them is
`MISSING`; otherwise false — and the first computed value is cached and
returned by later calls. -/
theorem required_priority_chain (s : FieldWrapper) (hc : s._required = Option.none) :
    (pyStartswith s.action_str "store_" = true → s.requiredVal = false) ∧
    (pyStartswith s.action_str "store_" = false → s.is_optional = true →
      s.requiredVal = false) ∧
    (pyStartswith s.action_str "store_" = false → s.is_optional = false →
      s.parentRequired = true → s.requiredVal = true) ∧
    (pyStartswith s.action_str "store_" = false → s.is_optional = false →
      s.parentRequired = false →
      (s.nargsV.eqStr "?" = true ∨ s.nargsV.eqStr "*" = true) →
      s.requiredVal = false) ∧
    (pyStartswith s.action_str "store_" = false → s.is_optional = false →
      s.parentRequired = false → s.nargsV.eqStr "?" = false →
      s.nargsV.eqStr "*" = false → s.nargsV.eqStr "+" = true →
      s.requiredVal = true) ∧
    (pyStartswith s.action_str "store_" = false → s.is_optional = false →
      s.parentRequired = false → s.nargsV.eqStr "?" = false →
      s.nargsV.eqStr "*" = false → s.nargsV.eqStr "+" = false →
      s.defaultVal.isNone = true → s.requiredVal = true) ∧
    (pyStartswith s.action_str "store_" = false → s.is_optional = false →
      s.parentRequired = false → s.nargsV.eqStr "?" = false →
      s.nargsV.eqStr "*" = false → s.nargsV.eqStr "+" = false →
      s.defaultVal.isNone = false → s.is_reused = true →
      s.requiredVal = s.defaultVal.anyMissing) ∧
    (pyStartswith s.action_str "store_" = false → s.is_optional = false →
      s.parentRequired = false → s.nargsV.eqStr "?" = false →
      s.nargsV.eqStr "*" = false → s.nargsV.eqStr "+" = false →
      s.defaultVal.isNone = false → s.is_reused = false →
      s.requiredVal = false) ∧
    (s.requiredGet.2).requiredGet = s.requiredGet := by
  refine ⟨?_, ?_, ?_, ?_, ?_, ?_, ?_, ?_, ?_⟩
  · intro h1
    simp [FieldWrapper.requiredVal, FieldWrapper.requiredCompute, hc, h1]
  · intro h1 h2
    simp [FieldWrapper.requiredVal, FieldWrapper.requiredCompute, hc, h1, h2]
  · intro h1 h2 h3
    simp [FieldWrapper.requiredVal, FieldWrapper.requiredCompute, hc, h1, h2, h3]
  · intro h1 h2 h3 h4
    cases h4 with
    | inl h4 =>
      simp [FieldWrapper.requiredVal, FieldWrapper.requiredCompute,
        hc, h1, h2, h3, h4]
    | inr h4 =>
      simp [FieldWrapper.requiredVal, FieldWrapper.requiredCompute,
        hc, h1, h2, h3, h4]
  · intro h1 h2 h3 h4 h5 h6
    simp [FieldWrapper.requiredVal, FieldWrapper.requiredCompute,
      hc, h1, h2, h3, h4, h5, h6]
  · intro h1 h2 h3 h4 h5 h6 h7
    simp [FieldWrapper.requiredVal, FieldWrapper.requiredCompute,
      hc, h1, h2, h3, h4, h5, h6, h7]
  · intro h1 h2 h3 h4 h5 h6 h7 h8
    simp [FieldWrapper.requiredVal, FieldWrapper.requiredCompute,
      hc, h1, h2, h3, h4, h5, h6, h7, h8]
  · intro h1 h2 h3 h4 h5 h6 h7 h8
    simp [FieldWrapper.requiredVal, FieldWrapper.requiredCompute,
      hc, h1, h2, h3, h4, h5, h6, h7, h8]
  · simp [FieldWrapper.requiredGet, hc]

/-- Witness for C4 at concrete inputs: a fresh field with no default is
required; a field with a custom `store_true` action is not. -/
theorem required_priority_chain_witness :
    FW0.requiredVal = true ∧ exC2.requiredVal = false := by
  constructor
  · exact (required_priority_chain FW0 rfl).2.2.2.2.2.1
      (by decide) rfl rfl rfl rfl rfl rfl
  · exact (required_priority_chain exC2 rfl).1 (by decide)

/-- A value with `isNone = true` is `None`. -/
theorem Value.isNone_eq (v : Value) (h : v.isNone = true) : v = Value.none := by
  cases v <;> simp [Value.isNone] at h ⊢

/-- Counterexample to C5 as stated: for a field with its own declared
default `1` whose owning structure has a default instance carrying `2`,
the code resolves `default` to `2` — the parent default instance's
attribute *overrides* the field's own default (the source computes the
field default first and then unconditionally replaces it when
`parent.defaults` is non-empty; its docstring lists the parent value as
the higher priority) — while the claim's priority order (field's own
declared default before the parent instance's attribute) yields `1`. -/
theorem default_field_vs_parent_counterexample :
    exC5.defaultVal = Value.int 2 ∧ exC5.defaultSpecStated = Value.int 1 ∧
    exC5.defaultVal ≠ exC5.defaultSpecStated := by
  refine ⟨rfl, rfl, fun h => ?_⟩
  injection (show Value.int 2 = Value.int 1 from h) with h2
  exact absurd h2 (by decide)

/-- Claim C5 (amended: the owning structure's default instance's attribute
takes priority over the field's own declared default, not the reverse):
`default` resolves as — the explicitly set value wins; next the parent
default instance's corresponding attribute (one value, or the list of
per-instance values when several default instances exist); next the
field's own declared default; next a boolean forced by the
`store_true`/`store_false` action-kinds; else no default — with the
result replicated to one value per destination when the field is reused,
and cached after first computation. -/
theorem default_priority_chain (s : FieldWrapper) :
    (s._default.isNone = false → s.defaultVal = s._default) ∧
    (s._default.isNone = true → s.parentDefaults.isEmpty = false →
      s.defaultVal = s.replicateIfReused s.parentAttr) ∧
    (s._default.isNone = true → s.parentDefaults.isEmpty = true →
      s.fieldDefault.isMissing = false → s.fieldDefault.isNone = false →
      s.defaultVal = s.replicateIfReused s.fieldDefault) ∧
    (s._default.isNone = true → s.parentDefaults.isEmpty = true →
      (s.fieldDefault.isMissing = true ∨ s.fieldDefault.isNone = true) →
      s.actionV.eqStr "store_true" = true →
      s.defaultVal = s.replicateIfReused (Value.bool false)) ∧
    (s._default.isNone = true → s.parentDefaults.isEmpty = true →
      (s.fieldDefault.isMissing = true ∨ s.fieldDefault.isNone = true) →
      s.actionV.eqStr "store_false" = true →
      s.defaultVal = s.replicateIfReused (Value.bool true)) ∧
    (s._default.isNone = true → s.parentDefaults.isEmpty = true →
      (s.fieldDefault.isMissing = true ∨ s.fieldDefault.isNone = true) →
      s.actionV.eqStr "store_true" = false →
      s.actionV.eqStr "store_false" = false →
      s.defaultVal = Value.none) ∧
    (s.defaultGet.2).defaultGet = s.defaultGet := by
  refine ⟨?_, ?_, ?_, ?_, ?_, ?_, ?_⟩
  · intro h1
    have h1p : ¬ s._default.isNone = true := by simp [h1]
    rw [FieldWrapper.defaultVal, if_pos h1p]
  · intro h1 h2
    simp [FieldWrapper.defaultVal, FieldWrapper.defaultCompute, h1, h2]
  · intro h1 h2 h3 h4
    simp [FieldWrapper.defaultVal, FieldWrapper.defaultCompute, h1, h2, h3, h4]
  · intro h1 h2 h3 h4
    have h1e : s._default = Value.none := Value.isNone_eq _ h1
    cases h3 with
    | inl h3 =>
      simp [FieldWrapper.defaultVal, FieldWrapper.defaultCompute,
        Value.isNone, h1e, h2, h3, h4]
    | inr h3 =>
      have hfd : s.fieldDefault = Value.none := Value.isNone_eq _ h3
      simp [FieldWrapper.defaultVal, FieldWrapper.defaultCompute,
        Value.isNone, Value.isMissing, h1e, h2, hfd, h4]
  · intro h1 h2 h3 h4
    have h1e : s._default = Value.none := Value.isNone_eq _ h1
    have hnot : s.actionV.eqStr "store_true" = false :=
      Value.eqStr_ne s.actionV "store_false" "store_true" h4 (by decide)
    cases h3 with
    | inl h3 =>
      simp [FieldWrapper.defaultVal, FieldWrapper.defaultCompute,
        Value.isNone, h1e, h2, h3, h4, hnot]
    | inr h3 =>
      have hfd : s.fieldDefault = Value.none := Value.isNone_eq _ h3
      simp [FieldWrapper.defaultVal, FieldWrapper.defaultCompute,
        Value.isNone, Value.isMissing, h1e, h2, hfd, h4, hnot]
  · intro h1 h2 h3 h4 h5
    have h1e : s._default = Value.none := Value.isNone_eq _ h1
    cases h3 with
    | inl h3 =>
      simp [FieldWrapper.defaultVal, FieldWrapper.defaultCompute,
        FieldWrapper.replicateIfReused, Value.isNone, h1e, h2, h3, h4, h5]
    | inr h3 =>
      have hfd : s.fieldDefault = Value.none := Value.isNone_eq _ h3
      simp [FieldWrapper.defaultVal, FieldWrapper.defaultCompute,
        FieldWrapper.replicateIfReused, Value.isNone, Value.isMissing,
        h1e, h2, hfd, h4, h5]
  · by_cases h1 : s._default.isNone = false
    · simp [FieldWrapper.defaultGet, h1]
    · have h1t : s._default.isNone = true := by
        cases hx : s._default.isNone
        · exact absurd hx h1
        · rfl
      have h1e : s._default = Value.none := Value.isNone_eq _ h1t
      by_cases h2 : (s.defaultCompute).isNone = false
      · have hfirst : s.defaultGet =
            (s.defaultCompute, { s with _default := s.defaultCompute }) := by
          rw [FieldWrapper.defaultGet]
          simp [h1t]
        rw [hfirst]
        rw [FieldWrapper.defaultGet]
        simp [h2]
      · have h2e : s.defaultCompute = Value.none := Value.isNone_eq _ (by
          cases hx : (s.defaultCompute).isNone
          · exact absurd hx h2
          · rfl)
        have hupd : { s with _default := Value.none } = s := by
          cases s
          simp_all
        have hfirst : s.defaultGet = (Value.none, s) := by
          rw [FieldWrapper.defaultGet]
          rw [h2e] at *
          simp [h1t, hupd, h2e]
        rw [hfirst]
        exact hfirst

/-- Witness for C5 at concrete inputs: the parent default instance's `2`
wins over the field's declared `1`; with no parent default instance the
field's declared `7` is used. -/
theorem default_priority_chain_witness :
    exC5.defaultVal = Value.int 2 ∧ exC5b.defaultVal = Value.int 7 := by
  constructor
  · have h := (default_priority_chain exC5).2.1 rfl rfl
    rw [h]
    rfl
  · have h := (default_priority_chain exC5b).2.2.1 rfl rfl rfl rfl
    rw [h]
    rfl

/-- Claim C6: `option_strings` is duplicate-free and sorted by ascending
length, and a field with a one-character bare name gets both the
single-dash and the double-dash spelling of its prefixed name. -/
theorem option_strings_sorted_nodup_one_char (s : FieldWrapper) :
    List.Sorted lenLE s.option_strings ∧
    s.option_strings.Nodup ∧
    (s.name.length = 1 →
      ("-" ++ (s.pfx ++ s.name)) ∈ s.option_strings ∧
      ("--" ++ (s.pfx ++ s.name)) ∈ s.option_strings) := by
  refine ⟨?_, ?_, ?_⟩
  · exact List.sorted_insertionSort lenLE _
  · exact (List.perm_insertionSort lenLE _).symm.nodup (List.nodup_dedup _)
  · intro h1
    constructor
    · rw [FieldWrapper.option_strings, List.mem_insertionSort, List.mem_dedup]
      refine List.mem_map.mpr ⟨("-", s.pfx ++ s.name), ?_, rfl⟩
      apply List.mem_append_left
      simp [FieldWrapper.basePairs, h1]
    · rw [FieldWrapper.option_strings, List.mem_insertionSort, List.mem_dedup]
      refine List.mem_map.mpr ⟨("--", s.pfx ++ s.name), ?_, rfl⟩
      apply List.mem_append_left
      simp [FieldWrapper.basePairs, h1]

/-- Witness for C6 at a concrete input: a one-character field `x` under
prefix `p.` gets both `-p.x` and `--p.x`. -/
theorem option_strings_sorted_nodup_one_char_witness :
    ("-p.x" ∈ exC6.option_strings ∧ "--p.x" ∈ exC6.option_strings) := by
  exact (option_strings_sorted_nodup_one_char exC6).2.2 rfl

/-- Counterexample to C7 as stated: with the dash-variant toggle on, the
one-character field `x` under prefix `a_` generates the single-dash
spelling `-a_x`, whose name part `a_x` contains an underscore; but the
dash count of the added variant is recomputed from the variant's length
(giving `--a-x`), not copied from the original spelling, so the
same-dash-count variant `-a-x` is absent from the result. -/
theorem option_strings_dash_variant_counterexample :
    exC7.option_strings = ["-a_x", "--a_x", "--a-x"] ∧
    hasUnderscore "a_x" = true ∧
    ("-a_x" ∈ exC7.option_strings) ∧ ("-a-x" ∉ exC7.option_strings) := by
  refine ⟨?_, ?_, ?_, ?_⟩ <;> decide

/-- Claim C7 (amended: the variant's dash count is recomputed from the
length of the hyphenated name — two dashes unless that name has length 1
— rather than copied from the original spelling): when the dash-variant
toggle is on, for every generated dash/name pair whose name part
contains an underscore, the result also contains the variant with every
underscore replaced by a hyphen under the recomputed dash count. -/
theorem option_strings_dash_variant (s : FieldWrapper)
    (ht : s.add_dash_variants = true) :
    ∀ d o, (d, o) ∈ s.basePairs → hasUnderscore o = true →
      ((if (dashify o).length = 1 then "-" else "--") ++ dashify o) ∈
        s.option_strings := by
  intro d o hmem hund
  rw [FieldWrapper.option_strings, List.mem_insertionSort, List.mem_dedup]
  apply List.mem_map.mpr
  refine ⟨((if (dashify o).length = 1 then "-" else "--"), dashify o), ?_, rfl⟩
  apply List.mem_append_right
  rw [if_pos ht]
  unfold FieldWrapper.variantPairs
  apply List.mem_map.mpr
  refine ⟨o, ?_, rfl⟩
  rw [List.mem_filter]
  exact ⟨List.mem_map.mpr ⟨(d, o), hmem, rfl⟩, hund⟩

/-- Witness for C7 at a concrete input: the spelling `-a_x` has an
underscore in its name part, and the hyphenated variant `--a-x` (dash
count recomputed from the length of `a-x`) is present. -/
theorem option_strings_dash_variant_witness :
    "--a-x" ∈ exC7.option_strings := by
  have h := option_strings_dash_variant exC7 rfl "-" "a_x" (by decide) (by decide)
  simpa using h

/-- Claim C1: for a reused field with more than one destination, once the
early grouped-unwrap has not fired, `duplicate_if_needed` — after
coercing a bare scalar into a single-element sequence — returns the
sequence as-is when its length equals N, replicates the single element N
times when its length is 1, and otherwise raises
`InconsistentArgumentError` with a message naming the field, the number
of values received, and the expected 1-or-N. -/
theorem duplicate_if_needed_trichotomy (s : FieldWrapper) (pv : Value)
    (hn : 1 < s.destinations.length)
    (hu : s.dupUnwrap (s.dupCoerce pv) s.destinations.length = Option.none) :
    ((toSeq (s.dupCoerce pv)).length = s.destinations.length →
      s.duplicate_if_needed pv = Except.ok (toSeq (s.dupCoerce pv))) ∧
    ((toSeq (s.dupCoerce pv)).length = 1 →
      s.duplicate_if_needed pv =
        Except.ok (List.replicate s.destinations.length
          ((toSeq (s.dupCoerce pv)).headD Value.none))) ∧
    ((toSeq (s.dupCoerce pv)).length ≠ s.destinations.length →
     (toSeq (s.dupCoerce pv)).length ≠ 1 →
      s.duplicate_if_needed pv = Except.error (DupError.inconsistentArgumentError
        (inconsistentMsg s.name (toSeq (s.dupCoerce pv)).length
          s.destinations.length)) ∧
      (∃ x y, inconsistentMsg s.name (toSeq (s.dupCoerce pv)).length
          s.destinations.length = x ++ s.name ++ y) ∧
      (∃ x y, inconsistentMsg s.name (toSeq (s.dupCoerce pv)).length
          s.destinations.length =
            x ++ toString (toSeq (s.dupCoerce pv)).length ++ y) ∧
      (∃ x y, inconsistentMsg s.name (toSeq (s.dupCoerce pv)).length
          s.destinations.length =
            x ++ ("1 or " ++ toString s.destinations.length) ++ y)) := by
  have hn' : ¬ (s.destinations.length ≤ 1) := not_le.mpr hn
  refine ⟨?_, ?_, ?_⟩
  · intro h
    simp [FieldWrapper.duplicate_if_needed, hn', hu, h]
  · intro h
    have hne : ¬ ((toSeq (s.dupCoerce pv)).length = s.destinations.length) := by
      omega
    have hne1 : ¬ (1 = s.destinations.length) := by omega
    simp [FieldWrapper.duplicate_if_needed, hn', hu, h, hne, hne1]
  · intro h1 h2
    refine ⟨by simp [FieldWrapper.duplicate_if_needed, hn', hu, h1, h2], ?_, ?_, ?_⟩
    · exact ⟨"The field '",
        "' contains " ++ toString (toSeq (s.dupCoerce pv)).length ++
          " values, but either " ++
          ("1 or " ++ toString s.destinations.length) ++
          " values were expected.",
        by simp [inconsistentMsg, String.append_assoc]⟩
    · exact ⟨"The field '" ++ s.name ++ "' contains ",
        " values, but either " ++ ("1 or " ++ toString s.destinations.length) ++
          " values were expected.",
        by simp [inconsistentMsg, String.append_assoc]⟩
    · exact ⟨"The field '" ++ s.name ++ "' contains " ++
          toString (toSeq (s.dupCoerce pv)).length ++ " values, but either ",
        " values were expected.",
        by simp [inconsistentMsg, String.append_assoc]⟩

/-- Witness for C1 at concrete inputs with N = 3: a scalar is replicated
three times; a two-element input raises the inconsistent-argument error
naming the field `x`, the count 2 and the expected 1-or-3. -/
theorem duplicate_if_needed_trichotomy_witness :
    exC1.duplicate_if_needed (Value.int 5) =
      Except.ok [Value.int 5, Value.int 5, Value.int 5] ∧
    exC1.duplicate_if_needed (Value.vlist [Value.int 1, Value.int 2]) =
      Except.error (DupError.inconsistentArgumentError
        "The field 'x' contains 2 values, but either 1 or 3 values were expected.") := by
  constructor
  · have h := (duplicate_if_needed_trichotomy exC1 (Value.int 5)
      (by decide) rfl).2.1 (by decide)
    simpa using h
  · have h := ((duplicate_if_needed_trichotomy exC1
      (Value.vlist [Value.int 1, Value.int 2])
      (by decide) rfl).2.2 (by decide) (by decide)).1
    rw [h]
    rfl
